import Mathlib

/-!
Shallow embedding of `src/program_director/scanner.py` (playlist-agent):
the Radarr/Sonarr catalog clients and the `MediaLibrary` aggregation layer.

Modelling conventions:
* Python JSON dictionaries with optional keys become structures of `Option`
  fields; `dict.get(k, default)` becomes `Option.getD`.
* Python floats (the rating fields) are modelled as `ℚ`; every operation the
  code performs on them (comparison, zero test) is exact.
* Python integer fields that are counts/identifiers are modelled as `ℕ`.
* Python's stable `sorted(..., reverse=True)` is modelled by an insertion
  sort that keeps earlier input elements in front of later equal-key ones.
* Python `dict` (insertion-ordered) becomes an association list updated in
  place (`bumpGenre`).
* The HTTP world is modelled by an environment assigning to each fetch index
  a response (`Except ApiError data`); a `MediaLibrary` instance is a state
  holding the two optional caches and the per-client fetch counters.
-/

namespace Scanner

/-- Python's `str.lower()` (ASCII case mapping, which covers every token the
code compares against: "anime"). Defined directly on the character list so
that it is kernel-computable. -/
def pyLower (s : String) : String :=
  ⟨s.data.map Char.toLower⟩

/-- `MovieItem` dataclass (scanner.py lines 8-23). -/
structure MovieItem where
  id : ℕ
  title : String
  year : ℕ
  genres : List String
  runtime : ℕ
  overview : String
  imdb_rating : ℚ
  tmdb_rating : ℚ
  has_file : Bool
deriving Repr, DecidableEq

/-- `SeriesItem` dataclass (scanner.py lines 26-41). -/
structure SeriesItem where
  id : ℕ
  title : String
  year : ℕ
  genres : List String
  runtime : ℕ
  overview : String
  rating : ℚ
  episode_count : ℕ
  series_type : String
deriving Repr, DecidableEq

/-- Nested object `ratings.imdb` / `ratings.tmdb` of a raw Radarr movie
record: may lack the `value` key. -/
structure RawRatingObj where
  value : Option ℚ
deriving Repr, DecidableEq

/-- `ratings` object of a raw movie record; each sub-object may be absent. -/
structure RawMovieRatings where
  imdb : Option RawRatingObj
  tmdb : Option RawRatingObj
deriving Repr, DecidableEq

/-- A raw JSON movie record returned by `GET /api/v3/movie`; every key may
be absent. -/
structure RawMovie where
  id : Option ℕ
  title : Option String
  year : Option ℕ
  genres : Option (List String)
  runtime : Option ℕ
  overview : Option String
  hasFile : Option Bool
  ratings : Option RawMovieRatings
deriving Repr, DecidableEq

/-- `ratings` object of a raw series record (`ratings.value`). -/
structure RawSeriesRatings where
  value : Option ℚ
deriving Repr, DecidableEq

/-- `statistics` object of a raw series record. -/
structure RawStatistics where
  episodeFileCount : Option ℕ
deriving Repr, DecidableEq

/-- A raw JSON series record returned by `GET /api/v3/series`. -/
structure RawSeries where
  id : Option ℕ
  title : Option String
  year : Option ℕ
  genres : Option (List String)
  runtime : Option ℕ
  overview : Option String
  ratings : Option RawSeriesRatings
  statistics : Option RawStatistics
  seriesType : Option String
deriving Repr, DecidableEq

/-- Transport/HTTP failure raised by `ArrAPIClient._get`
(`response.raise_for_status()`, scanner.py line 57). Carries the HTTP
status code; its identity is irrelevant, only that it propagates. -/
structure ApiError where
  status : ℕ
deriving Repr, DecidableEq

/-- Body of the `for item in data` loop of `RadarrClient.get_movies`
(scanner.py lines 73-93), applied when the record is not skipped: builds a
`MovieItem` with the `item.get(key, default)` fallbacks. -/
def parseMovie (item : RawMovie) : MovieItem :=
  let ratings := item.ratings.getD ⟨none, none⟩
  let imdb := (ratings.imdb.getD ⟨none⟩).value.getD 0
  let tmdb := (ratings.tmdb.getD ⟨none⟩).value.getD 0
  { id := item.id.getD 0
    title := item.title.getD "Unknown"
    year := item.year.getD 0
    genres := item.genres.getD []
    runtime := item.runtime.getD 0
    overview := item.overview.getD ""
    imdb_rating := imdb
    tmdb_rating := tmdb
    has_file := true }

/-- `RadarrClient.get_movies` (scanner.py lines 68-95) applied to the parsed
JSON array: skips records whose `hasFile` is absent or false, otherwise
appends the parsed `MovieItem`. -/
def get_movies : List RawMovie → List MovieItem
  | [] => []
  | item :: rest =>
    if item.hasFile.getD false then parseMovie item :: get_movies rest
    else get_movies rest

/-- `item.get("statistics", {}).get("episodeFileCount", 0)`
(scanner.py lines 114-115). -/
def rawEpisodeCount (item : RawSeries) : ℕ :=
  (item.statistics.getD ⟨none⟩).episodeFileCount.getD 0

/-- Body of the `for item in data` loop of `SonarrClient.get_series`
(scanner.py lines 119-133), applied when the record is not skipped. -/
def parseSeries (item : RawSeries) : SeriesItem :=
  let ratings := item.ratings.getD ⟨none⟩
  { id := item.id.getD 0
    title := item.title.getD "Unknown"
    year := item.year.getD 0
    genres := item.genres.getD []
    runtime := item.runtime.getD 0
    overview := item.overview.getD ""
    rating := ratings.value.getD 0
    episode_count := rawEpisodeCount item
    series_type := item.seriesType.getD "standard" }

/-- `SonarrClient.get_series` (scanner.py lines 107-135): skips records
whose downloaded-episode count is zero. -/
def get_series : List RawSeries → List SeriesItem
  | [] => []
  | item :: rest =>
    if rawEpisodeCount item = 0 then get_series rest
    else parseSeries item :: get_series rest

/-- The anime predicate used both by `SonarrClient.get_anime`
(scanner.py line 143) and by `MediaLibrary.anime` (line 190):
`s.series_type == "anime" or "anime" in [g.lower() for g in s.genres]`. -/
def isAnime (s : SeriesItem) : Bool :=
  s.series_type = "anime" || (s.genres.map pyLower).contains "anime"

/-- `MediaLibrary.anime` (scanner.py lines 184-191) computed over the cached
series list. -/
def animeOf (series : List SeriesItem) : List SeriesItem :=
  series.filter isAnime

/-- `MediaLibrary.tv_shows` (scanner.py lines 193-197): the cached series
list minus the set of anime identifiers. -/
def tv_showsOf (series : List SeriesItem) : List SeriesItem :=
  let anime_ids := (animeOf series).map SeriesItem.id
  series.filter (fun s => ¬ anime_ids.contains s.id)

/-- Insert `a` into `l` in front of the first element whose key is `≤ key a`.
Together with `sortKeyDesc` this models Python's stable
`sorted(l, key=key, reverse=True)`: an element is placed before every
later-input element of equal key and after every earlier-input one. -/
def insertKeyDesc {α β : Type} [LinearOrder β] (key : α → β) (a : α) :
    List α → List α
  | [] => [a]
  | b :: l => if key b ≤ key a then a :: b :: l else b :: insertKeyDesc key a l

/-- Stable descending sort by `key`, modelling
`sorted(l, key=key, reverse=True)`. -/
def sortKeyDesc {α β : Type} [LinearOrder β] (key : α → β) : List α → List α
  | [] => []
  | a :: l => insertKeyDesc key a (sortKeyDesc key l)

/-- Python truthiness coercion `x or 0` applied to a numeric sort key
(scanner.py lines 209, 222, 235). -/
def pyOr0 (q : ℚ) : ℚ :=
  if q = 0 then 0 else q

/-- `sorted(self.movies, key=lambda m: m.imdb_rating or 0, reverse=True)`
(scanner.py line 209). -/
def sorted_movies (movies : List MovieItem) : List MovieItem :=
  sortKeyDesc (fun m => pyOr0 m.imdb_rating) movies

/-- The movie rows rendered by `get_media_summary` (scanner.py line 210):
the sorted list truncated to the top 100. -/
def moviesTable (movies : List MovieItem) : List MovieItem :=
  (sorted_movies movies).take 100

/-- `sorted(self.tv_shows, key=lambda s: s.rating or 0, reverse=True)[:50]`
(scanner.py lines 222-223). -/
def tvShowsTable (series : List SeriesItem) : List SeriesItem :=
  (sortKeyDesc (fun s => pyOr0 s.rating) (tv_showsOf series)).take 50

/-- `sorted(self.anime, key=lambda a: a.rating or 0, reverse=True)[:50]`
(scanner.py lines 235-236). -/
def animeTable (series : List SeriesItem) : List SeriesItem :=
  (sortKeyDesc (fun a => pyOr0 a.rating) (animeOf series)).take 50

/-- Genres cell of a movie or TV-show row (scanner.py lines 211, 224):
`", ".join(genres[:3]) if genres else "-"`. -/
def genresCell (genres : List String) : String :=
  if genres = [] then "-" else String.intercalate ", " (genres.take 3)

/-- Genres cell of an anime row (scanner.py line 237):
`", ".join([g for g in anime.genres[:3] if g.lower() != "anime"]) or "-"`.
The truncation to the first 3 genres happens BEFORE the "anime" token is
filtered out, and Python's `or "-"` substitutes the dash when the joined
string is empty (falsy). -/
def animeGenresCell (a : SeriesItem) : String :=
  let joined :=
    String.intercalate ", " ((a.genres.take 3).filter (fun g => pyLower g ≠ "anime"))
  if joined = "" then "-" else joined

/-- Modelled from the words of the specification (not from the code), for
comparison with `animeGenresCell`: remove the literal "anime" token
(case-insensitively) from the genre list, THEN take the first 3 remaining
genres joined by ", ", or "-" if none remain. -/
def animeGenresCellSpec (a : SeriesItem) : String :=
  let remaining := a.genres.filter (fun g => pyLower g ≠ "anime")
  if remaining = [] then "-" else String.intercalate ", " (remaining.take 3)

/-- Amended description of the anime genres cell, following the code: take
the first 3 genres, then drop the "anime" token case-insensitively, join by
", ", and show "-" when the joined string is empty. -/
def animeGenresCellAmended (a : SeriesItem) : String :=
  let kept := (a.genres.take 3).filter (fun g => pyLower g ≠ "anime")
  let joined := String.intercalate ", " kept
  if joined = "" then "-" else joined

/-- `genre_counts[genre] = genre_counts.get(genre, 0) + 1` on an
insertion-ordered Python dict, modelled as an association list updated in
place (the key keeps its position; a new key is appended). -/
def bumpGenre : List (String × ℕ) → String → List (String × ℕ)
  | [], g => [(g, 1)]
  | (k, v) :: rest, g =>
    if k = g then (k, v + 1) :: rest else (k, v) :: bumpGenre rest g

/-- The `genre_counts` dict built by `get_genre_stats`
(scanner.py lines 247-255): movies scanned first, then series, one bump per
(item, genre) pair. -/
def genre_counts (movies : List MovieItem) (series : List SeriesItem) :
    List (String × ℕ) :=
  let afterMovies := movies.foldl (fun acc m => m.genres.foldl bumpGenre acc) []
  series.foldl (fun acc s => s.genres.foldl bumpGenre acc) afterMovies

/-- `get_genre_stats` (scanner.py lines 245-257):
`dict(sorted(genre_counts.items(), key=lambda x: x[1], reverse=True))`.
The keys are pairwise distinct, so rebuilding the dict preserves the sorted
order; the result is modelled as the ordered pair list. -/
def get_genre_stats (movies : List MovieItem) (series : List SeriesItem) :
    List (String × ℕ) :=
  sortKeyDesc Prod.snd (genre_counts movies series)

/-- `needle` occurs as a contiguous run inside the list (at any position,
including the empty run). -/
def listContainsSeq (needle : List Char) : List Char → Bool
  | [] => needle.isEmpty
  | a :: l => needle.isPrefixOf (a :: l) || listContainsSeq needle l

/-- Substring containment, modelling Python's `needle in haystack` on
strings. -/
def strContains (haystack needle : String) : Bool :=
  listContainsSeq needle.toList haystack.toList

/-- `MediaLibrary._matches_theme` (scanner.py lines 285-295): any keyword
equals a lowered genre or occurs in the lowered overview. The keywords are
already lowered by the caller. -/
def matches_theme (genres : List String) (overview : String)
    (keywords : List String) : Bool :=
  let genres_lower := genres.map pyLower
  let overview_lower := pyLower overview
  keywords.any (fun k => genres_lower.contains k || strContains overview_lower k)

/-- The three result lists returned by `search_by_theme`
(scanner.py lines 279-283). -/
structure SearchResult where
  movies : List MovieItem
  shows : List SeriesItem
  anime : List SeriesItem
deriving Repr, DecidableEq

/-- `MediaLibrary.search_by_theme` (scanner.py lines 259-283) over the
cached movie and series lists: lower-case the keywords, then filter movies,
tv_shows and anime independently. -/
def search_by_theme (movies : List MovieItem) (series : List SeriesItem)
    (theme_keywords : List String) : SearchResult :=
  let keywords_lower := theme_keywords.map pyLower
  { movies := movies.filter
      (fun m => matches_theme m.genres m.overview keywords_lower)
    shows := (tv_showsOf series).filter
      (fun s => matches_theme s.genres s.overview keywords_lower)
    anime := (animeOf series).filter
      (fun a => matches_theme a.genres a.overview keywords_lower) }

/-- The HTTP world: for each client, the response the n-th fetch would
receive (`.error` models `raise_for_status` raising,
scanner.py lines 52-58). -/
structure Env where
  radarr : ℕ → Except ApiError (List RawMovie)
  sonarr : ℕ → Except ApiError (List RawSeries)

/-- The mutable state of a `MediaLibrary` instance: the two lazy caches
(scanner.py lines 166-168) plus a count of fetches each client has issued. -/
structure LibState where
  movieCache : Option (List MovieItem)
  seriesCache : Option (List SeriesItem)
  radarrCalls : ℕ
  sonarrCalls : ℕ
deriving Repr, DecidableEq

/-- A fresh `MediaLibrary` right after `__init__`: both caches empty, no
fetch issued. -/
def LibState.init : LibState :=
  { movieCache := none, seriesCache := none, radarrCalls := 0, sonarrCalls := 0 }

/-- The `movies` property (scanner.py lines 170-175): return the cache if
populated, otherwise issue one fetch; a transport error propagates and the
cache stays unpopulated. -/
def moviesAccess (env : Env) (st : LibState) :
    Except ApiError (List MovieItem) × LibState :=
  match st.movieCache with
  | some ms => (.ok ms, st)
  | none =>
    match env.radarr st.radarrCalls with
    | .error e => (.error e, { st with radarrCalls := st.radarrCalls + 1 })
    | .ok data =>
      let ms := get_movies data
      (.ok ms, { st with movieCache := some ms, radarrCalls := st.radarrCalls + 1 })

/-- The `series` property (scanner.py lines 177-182), symmetric to
`moviesAccess`. -/
def seriesAccess (env : Env) (st : LibState) :
    Except ApiError (List SeriesItem) × LibState :=
  match st.seriesCache with
  | some ss => (.ok ss, st)
  | none =>
    match env.sonarr st.sonarrCalls with
    | .error e => (.error e, { st with sonarrCalls := st.sonarrCalls + 1 })
    | .ok data =>
      let ss := get_series data
      (.ok ss, { st with seriesCache := some ss, sonarrCalls := st.sonarrCalls + 1 })

/-- The stateful skeleton of `get_media_summary` (scanner.py lines 199-243):
the first statement touching the network reads `self.movies` (line 209), and
rendering the TV-show and anime tables reads `self.series` (via `tv_shows` /
`anime`, lines 222, 235). An error from either access aborts the whole call;
on success the document is a pure function of the two cached lists, whose
row content is modelled by `moviesTable`, `tvShowsTable`, `animeTable`,
`genresCell` and `animeGenresCell`. -/
def get_media_summary_st (env : Env) (st : LibState) :
    Except ApiError (List MovieItem × List SeriesItem) × LibState :=
  let mres := moviesAccess env st
  match mres.1 with
  | .error e => (.error e, mres.2)
  | .ok ms =>
    let sres := seriesAccess env mres.2
    match sres.1 with
    | .error e => (.error e, sres.2)
    | .ok ss => (.ok (ms, ss), sres.2)

/-- The stream of (item, genre) pairs the `get_genre_stats` loops walk:
each movie's genres, then each series' genres, in input order. -/
def genreStream (movies : List MovieItem) (series : List SeriesItem) :
    List String :=
  (movies.map MovieItem.genres).flatten ++ (series.map SeriesItem.genres).flatten

/-- The genres of a stream in the order they are first encountered,
skipping those already in `seen`. Spec-side notion used to phrase the
tie-breaking order of `get_genre_stats`. -/
def firstOccurrences (seen : List String) : List String → List String
  | [] => []
  | g :: gs =>
    if g ∈ seen then firstOccurrences seen gs
    else g :: firstOccurrences (seen ++ [g]) gs

/-- Spec-side matching predicate of `search_by_theme`: some keyword
case-insensitively equals one of the item's genres, or occurs
case-insensitively as a substring of the synopsis text. -/
def themeMatchProp (genres : List String) (overview : String)
    (keywords : List String) : Prop :=
  ∃ k ∈ keywords,
    (∃ g ∈ genres, pyLower k = pyLower g) ∨
      List.IsInfix (pyLower k).data (pyLower overview).data

/-- The first raw record of the C3 scenario:
`{id:1, title:"Movie A", year:2020, hasFile:true, genres:["Action"],
ratings:{imdb:{value:8.5}}}`. -/
def movieRecordA : RawMovie :=
  { id := some 1, title := some "Movie A", year := some 2020,
    genres := some ["Action"], runtime := none, overview := none,
    hasFile := some true,
    ratings := some { imdb := some ⟨some 8.5⟩, tmdb := none } }

/-- The second raw record of the C3 scenario: `hasFile:false` (other fields
irrelevant; id 2 keeps identifiers distinct). -/
def movieRecordB : RawMovie :=
  { id := some 2, title := none, year := none, genres := none,
    runtime := none, overview := none, hasFile := some false,
    ratings := none }

/-- The `MovieItem` the C3 scenario expects: "Movie A" with
`imdb_rating = 8.5` and `tmdb_rating = 0.0`. -/
def movieItemA : MovieItem :=
  { id := 1, title := "Movie A", year := 2020, genres := ["Action"],
    runtime := 0, overview := "", imdb_rating := 8.5, tmdb_rating := 0,
    has_file := true }

/-- A raw series record with zero downloaded episodes, used as a witness
input for C4. -/
def seriesRecordZero : RawSeries :=
  { id := some 9, title := some "Empty", year := none, genres := none,
    runtime := none, overview := none, ratings := none,
    statistics := some ⟨some 0⟩, seriesType := none }

/-- A raw series record with 12 downloaded episodes, used as a witness
input for C4 (the spec's `{id:5, title:"Show X", seriesType:"anime",
statistics:{episodeFileCount:12}}`). -/
def seriesRecordX : RawSeries :=
  { id := some 5, title := some "Show X", year := none, genres := none,
    runtime := none, overview := none, ratings := none,
    statistics := some ⟨some 12⟩, seriesType := some "anime" }

/-- An anime series whose genre list starts with the "Anime" token and has
three further genres: the input on which the C1 wording and the code
disagree. -/
def crowdedAnime : SeriesItem :=
  { id := 1, title := "X", year := 2020,
    genres := ["Anime", "Action", "Comedy", "Drama"], runtime := 20,
    overview := "", rating := 8, episode_count := 12, series_type := "anime" }

/-- A movie carrying the "Anime" genre, used in search witnesses. -/
def animeMovie : MovieItem :=
  { id := 2, title := "M", year := 2000, genres := ["Anime"], runtime := 90,
    overview := "a great story", imdb_rating := 7, tmdb_rating := 0,
    has_file := true }

/-- An environment whose radarr endpoint always fails with HTTP 500 and
whose sonarr endpoint always returns the one-record catalog
`[seriesRecordX]`; used by the C8/C9 witnesses. -/
def envRadarrDown : Env :=
  { radarr := fun _ => .error ⟨500⟩, sonarr := fun _ => .ok [seriesRecordX] }

/-- An environment where both endpoints succeed: radarr returns the two C3
scenario records, sonarr the one-record catalog `[seriesRecordX]`. -/
def envBothUp : Env :=
  { radarr := fun _ => .ok [movieRecordA, movieRecordB],
    sonarr := fun _ => .ok [seriesRecordX] }

/-! ### Properties of the stable descending sort -/

theorem mem_insertKeyDesc {α β : Type} [LinearOrder β] (key : α → β) (a x : α)
    (l : List α) : x ∈ insertKeyDesc key a l ↔ x = a ∨ x ∈ l := by
  induction l with
  | nil => simp [insertKeyDesc]
  | cons b t ih =>
    by_cases h : key b ≤ key a <;> simp only [insertKeyDesc, h, if_true,
      if_false, List.mem_cons, ih] <;> tauto

theorem pairwise_insertKeyDesc {α β : Type} [LinearOrder β] (key : α → β)
    (a : α) (l : List α) (hl : l.Pairwise (fun x y => key y ≤ key x)) :
    (insertKeyDesc key a l).Pairwise (fun x y => key y ≤ key x) := by
  induction l with
  | nil => simp [insertKeyDesc]
  | cons b t ih =>
    rcases List.pairwise_cons.1 hl with ⟨hb, ht⟩
    by_cases h : key b ≤ key a
    · simp only [insertKeyDesc, if_pos h]
      refine List.pairwise_cons.2 ⟨?_, hl⟩
      intro x hx
      rcases List.mem_cons.1 hx with rfl | hx
      · exact h
      · exact le_trans (hb x hx) h
    · simp only [insertKeyDesc, if_neg h]
      refine List.pairwise_cons.2 ⟨?_, ih ht⟩
      intro x hx
      rcases (mem_insertKeyDesc key a x t).1 hx with rfl | hx
      · exact (lt_of_not_le h).le
      · exact hb x hx

theorem sortKeyDesc_pairwise {α β : Type} [LinearOrder β] (key : α → β)
    (l : List α) : (sortKeyDesc key l).Pairwise (fun x y => key y ≤ key x) := by
  induction l with
  | nil => simp [sortKeyDesc]
  | cons a t ih => exact pairwise_insertKeyDesc key a _ ih

theorem perm_insertKeyDesc {α β : Type} [LinearOrder β] (key : α → β) (a : α)
    (l : List α) : List.Perm (insertKeyDesc key a l) (a :: l) := by
  induction l with
  | nil => exact List.Perm.refl _
  | cons b t ih =>
    by_cases h : key b ≤ key a
    · simp [insertKeyDesc, h]
    · rw [insertKeyDesc, if_neg h]
      exact (ih.cons b).trans (List.Perm.swap a b t)

theorem sortKeyDesc_perm {α β : Type} [LinearOrder β] (key : α → β)
    (l : List α) : List.Perm (sortKeyDesc key l) l := by
  induction l with
  | nil => exact List.Perm.refl _
  | cons a t ih => exact (perm_insertKeyDesc key a _).trans (ih.cons a)

theorem filter_insertKeyDesc {α β : Type} [LinearOrder β] (key : α → β)
    (a : α) (l : List α) (r : β) :
    (insertKeyDesc key a l).filter (fun x => decide (key x = r)) =
      if key a = r then a :: l.filter (fun x => decide (key x = r))
      else l.filter (fun x => decide (key x = r)) := by
  induction l with
  | nil => by_cases h : key a = r <;> simp [insertKeyDesc, h]
  | cons b t ih =>
    by_cases hba : key b ≤ key a
    · rw [insertKeyDesc, if_pos hba, List.filter_cons]
      by_cases har : key a = r <;> simp [har]
    · have hab : key a < key b := lt_of_not_le hba
      rw [insertKeyDesc, if_neg hba, List.filter_cons, ih, List.filter_cons]
      by_cases hbr : key b = r
      · have har : ¬ key a = r := fun h => absurd (h.trans hbr.symm) hab.ne
        simp [hbr, har]
      · simp [hbr]

theorem sortKeyDesc_filter_key {α β : Type} [LinearOrder β] (key : α → β)
    (l : List α) (r : β) :
    (sortKeyDesc key l).filter (fun x => decide (key x = r)) =
      l.filter (fun x => decide (key x = r)) := by
  induction l with
  | nil => rfl
  | cons a t ih =>
    rw [sortKeyDesc, filter_insertKeyDesc, ih, List.filter_cons]
    by_cases h : key a = r <;> simp [h]

theorem pyOr0_eq (q : ℚ) : pyOr0 q = q := by
  by_cases h : q = 0 <;> simp [pyOr0, h]

/-! ### Properties of the genre-count dictionary -/

theorem sum_bumpGenre (acc : List (String × ℕ)) (g : String) :
    ((bumpGenre acc g).map Prod.snd).sum = (acc.map Prod.snd).sum + 1 := by
  induction acc with
  | nil => simp [bumpGenre]
  | cons p t ih =>
    obtain ⟨k, v⟩ := p
    by_cases h : k = g
    · simp [bumpGenre, h]
      omega
    · simp [bumpGenre, h, ih]
      omega

theorem keys_bumpGenre (acc : List (String × ℕ)) (g : String) :
    (bumpGenre acc g).map Prod.fst =
      if g ∈ acc.map Prod.fst then acc.map Prod.fst
      else acc.map Prod.fst ++ [g] := by
  induction acc with
  | nil => simp [bumpGenre]
  | cons p t ih =>
    obtain ⟨k, v⟩ := p
    by_cases h : k = g
    · simp [bumpGenre, h]
    · by_cases hg : g ∈ t.map Prod.fst <;>
        simp [bumpGenre, h, ih, hg, Ne.symm h]

theorem foldl_bumpGenre_sum (gs : List String) (acc : List (String × ℕ)) :
    ((gs.foldl bumpGenre acc).map Prod.snd).sum =
      (acc.map Prod.snd).sum + gs.length := by
  induction gs generalizing acc with
  | nil => simp
  | cons g t ih =>
    rw [List.foldl_cons, ih, sum_bumpGenre, List.length_cons]
    omega

theorem foldl_bumpGenre_keys (gs : List String) (acc : List (String × ℕ)) :
    (gs.foldl bumpGenre acc).map Prod.fst =
      acc.map Prod.fst ++ firstOccurrences (acc.map Prod.fst) gs := by
  induction gs generalizing acc with
  | nil => simp [firstOccurrences]
  | cons g t ih =>
    rw [List.foldl_cons, ih, keys_bumpGenre, firstOccurrences]
    by_cases h : g ∈ acc.map Prod.fst
    · rw [if_pos h, if_pos h]
    · rw [if_neg h, if_neg h, List.append_assoc, List.singleton_append]

/-- The two nested loops of `get_genre_stats` bump once per element of the
flattened genre stream. -/
theorem foldl_nested_eq_flatten {γ : Type} (f : γ → List String)
    (items : List γ) (acc : List (String × ℕ)) :
    items.foldl (fun a x => (f x).foldl bumpGenre a) acc =
      ((items.map f).flatten).foldl bumpGenre acc := by
  induction items generalizing acc with
  | nil => rfl
  | cons x t ih =>
    rw [List.foldl_cons, ih, List.map_cons, List.flatten_cons, List.foldl_append]

theorem genre_counts_eq_stream_foldl (movies : List MovieItem)
    (series : List SeriesItem) :
    genre_counts movies series = (genreStream movies series).foldl bumpGenre [] := by
  unfold genre_counts genreStream
  rw [foldl_nested_eq_flatten MovieItem.genres,
    foldl_nested_eq_flatten SeriesItem.genres, List.foldl_append]

/-! ### Substring and theme matching -/

theorem listContainsSeq_iff (needle hay : List Char) :
    listContainsSeq needle hay = true ↔ List.IsInfix needle hay := by
  induction hay with
  | nil => simp [listContainsSeq, List.isEmpty_iff, List.infix_nil]
  | cons a l ih =>
    simp [listContainsSeq, Bool.or_eq_true, List.isPrefixOf_iff_prefix, ih,
      List.infix_cons_iff]

theorem matches_theme_iff (genres : List String) (overview : String)
    (kws : List String) :
    matches_theme genres overview (kws.map pyLower) = true ↔
      themeMatchProp genres overview kws := by
  unfold matches_theme themeMatchProp
  simp only [List.any_map, List.any_eq_true, Function.comp, Bool.or_eq_true,
    List.contains, List.elem_iff, List.mem_map, strContains, listContainsSeq_iff]
  constructor
  · rintro ⟨k, hk, h⟩
    refine ⟨k, hk, ?_⟩
    rcases h with ⟨g, hg, hgk⟩ | h
    · exact Or.inl ⟨g, hg, hgk.symm⟩
    · exact Or.inr h
  · rintro ⟨k, hk, h⟩
    refine ⟨k, hk, ?_⟩
    rcases h with ⟨g, hg, hgk⟩ | h
    · exact Or.inl ⟨g, hg, hgk.symm⟩
    · exact Or.inr h

theorem matches_theme_nil (genres : List String) (overview : String) :
    matches_theme genres overview [] = false := rfl

/-! ### Client characterizations -/

theorem get_movies_eq_filter_map (data : List RawMovie) :
    get_movies data =
      (data.filter (fun i => i.hasFile.getD false)).map parseMovie := by
  induction data with
  | nil => rfl
  | cons item rest ih =>
    by_cases h : item.hasFile.getD false = true <;>
      simp [get_movies, h, List.filter_cons, ih]

theorem get_series_eq_filter_map (data : List RawSeries) :
    get_series data =
      (data.filter (fun i => decide ¬ rawEpisodeCount i = 0)).map parseSeries := by
  induction data with
  | nil => rfl
  | cons item rest ih =>
    by_cases h : rawEpisodeCount item = 0 <;>
      simp [get_series, h, List.filter_cons, ih]

theorem mem_tv_shows_iff (series : List SeriesItem) (s : SeriesItem) :
    s ∈ tv_showsOf series ↔
      s ∈ series ∧ s.id ∉ (animeOf series).map SeriesItem.id := by
  simp [tv_showsOf, List.mem_filter, List.contains, List.elem_iff]

/-! ### Claim theorems -/

/-- C2: for every cached series list, `anime` and `tv_shows` partition the
series set exactly by identifier: the union of the two views' identifier
sets is the identifier set of the full list, no identifier is in both, and
`tv_shows` is the full list minus the anime identifier set (not a second
predicate evaluation). -/
theorem anime_tv_partition (series : List SeriesItem) :
    (∀ i : ℕ, (i ∈ (animeOf series).map SeriesItem.id ∨
        i ∈ (tv_showsOf series).map SeriesItem.id) ↔
        i ∈ series.map SeriesItem.id)
    ∧ (∀ i : ℕ, i ∈ (animeOf series).map SeriesItem.id →
        i ∉ (tv_showsOf series).map SeriesItem.id)
    ∧ tv_showsOf series = series.filter
        (fun s => ¬ ((animeOf series).map SeriesItem.id).contains s.id) := by
  refine ⟨?_, ?_, rfl⟩
  · intro i
    constructor
    · rintro (h | h)
      · rcases List.mem_map.1 h with ⟨s, hs, rfl⟩
        exact List.mem_map.2 ⟨s, (List.mem_filter.1 (by simpa [animeOf] using hs)).1, rfl⟩
      · rcases List.mem_map.1 h with ⟨s, hs, rfl⟩
        exact List.mem_map.2 ⟨s, ((mem_tv_shows_iff series s).1 hs).1, rfl⟩
    · intro h
      rcases List.mem_map.1 h with ⟨s, hs, rfl⟩
      by_cases ha : s.id ∈ (animeOf series).map SeriesItem.id
      · exact Or.inl ha
      · exact Or.inr (List.mem_map.2 ⟨s, (mem_tv_shows_iff series s).2 ⟨hs, ha⟩, rfl⟩)
  · intro i hi hti
    rcases List.mem_map.1 hti with ⟨s, hs, rfl⟩
    exact ((mem_tv_shows_iff series s).1 hs).2 hi

/-- C10: searching with an empty keyword list returns three empty lists,
whatever the caches hold. -/
theorem search_empty_keywords (movies : List MovieItem)
    (series : List SeriesItem) :
    search_by_theme movies series [] = ⟨[], [], []⟩ := by
  simp [search_by_theme, matches_theme_nil]

/-- C5: the Movies table of `get_media_summary` has at most 100 rows, its
rows are non-increasing in the primary (imdb) rating, and within equal
ratings the rows keep the cached input order (the sorted list's rating-r
slice equals the input's rating-r slice, and the truncated table's slice is
an ordered sublist of it). -/
theorem movies_table_ranked (movies : List MovieItem) :
    (moviesTable movies).length ≤ 100
    ∧ (moviesTable movies).Pairwise
        (fun a b => b.imdb_rating ≤ a.imdb_rating)
    ∧ (∀ r : ℚ, (sorted_movies movies).filter
          (fun m => decide (m.imdb_rating = r)) =
        movies.filter (fun m => decide (m.imdb_rating = r)))
    ∧ (∀ r : ℚ, List.Sublist
        ((moviesTable movies).filter (fun m => decide (m.imdb_rating = r)))
        (movies.filter (fun m => decide (m.imdb_rating = r)))) := by
  have hid : (fun m : MovieItem => pyOr0 m.imdb_rating) =
      (fun m : MovieItem => m.imdb_rating) := funext fun m => pyOr0_eq _
  have hsorted : sorted_movies movies =
      sortKeyDesc (fun m : MovieItem => m.imdb_rating) movies := by
    rw [sorted_movies, hid]
  have hstab : ∀ r : ℚ, (sorted_movies movies).filter
      (fun m => decide (m.imdb_rating = r)) =
      movies.filter (fun m => decide (m.imdb_rating = r)) := by
    intro r
    rw [hsorted]
    exact sortKeyDesc_filter_key (fun m : MovieItem => m.imdb_rating) movies r
  refine ⟨?_, ?_, hstab, ?_⟩
  · exact List.length_take_le 100 (sorted_movies movies)
  · refine List.Pairwise.sublist (List.take_sublist 100 _) ?_
    rw [hsorted]
    exact sortKeyDesc_pairwise (fun m : MovieItem => m.imdb_rating) movies
  · intro r
    rw [← hstab r]
    exact List.Sublist.filter _ (List.take_sublist 100 _)

/-- C6: `get_genre_stats` is ordered by descending count; the counts sum to
the total number of (item, genre) pairs over movies and series; equal-count
genres keep the order of the pre-sort dictionary (the count-c slice is
unchanged by the sort), whose keys are in movie-then-series
first-encounter order. -/
theorem genre_stats_spec (movies : List MovieItem) (series : List SeriesItem) :
    (get_genre_stats movies series).Pairwise (fun p q => q.2 ≤ p.2)
    ∧ ((get_genre_stats movies series).map Prod.snd).sum =
        (movies.map (fun m => m.genres.length)).sum +
        (series.map (fun s => s.genres.length)).sum
    ∧ (∀ c : ℕ, (get_genre_stats movies series).filter
          (fun p => decide (p.2 = c)) =
        (genre_counts movies series).filter (fun p => decide (p.2 = c)))
    ∧ (genre_counts movies series).map Prod.fst =
        firstOccurrences [] (genreStream movies series) := by
  refine ⟨?_, ?_, ?_, ?_⟩
  · exact sortKeyDesc_pairwise Prod.snd _
  · have hperm := sortKeyDesc_perm Prod.snd (genre_counts movies series)
    have hsum : ((get_genre_stats movies series).map Prod.snd).sum =
        ((genre_counts movies series).map Prod.snd).sum :=
      (hperm.map Prod.snd).sum_eq
    rw [hsum, genre_counts_eq_stream_foldl, foldl_bumpGenre_sum]
    simp [genreStream, List.length_flatten, List.map_map]
    rfl
  · intro c
    exact sortKeyDesc_filter_key Prod.snd _ c
  · rw [genre_counts_eq_stream_foldl, foldl_bumpGenre_keys]
    simp

/-- C1 counterexample: an anime series whose genre list is
["Anime", "Action", "Comedy", "Drama"] is rendered in the anime table with
genres cell "Action, Comedy" (truncate to 3, then drop "anime"), while the
claimed exclusion-before-truncation would give "Action, Comedy, Drama". -/
theorem anime_genres_cell_counterexample :
    crowdedAnime ∈ animeTable [crowdedAnime]
    ∧ animeGenresCell crowdedAnime = "Action, Comedy"
    ∧ animeGenresCellSpec crowdedAnime = "Action, Comedy, Drama"
    ∧ animeGenresCell crowdedAnime ≠ animeGenresCellSpec crowdedAnime := by
  refine ⟨by decide, by decide, by decide, by decide⟩

/-- C1 amended: in every anime-table row the genres cell is obtained by
first taking the first 3 genres, then removing the literal "anime" token
case-insensitively, joining by ", ", with "-" when the joined string is
empty. -/
theorem anime_genres_cell_amended (series : List SeriesItem) (a : SeriesItem)
    (_ha : a ∈ animeTable series) :
    animeGenresCell a = animeGenresCellAmended a := rfl

/-- Witness for `anime_genres_cell_amended` at a concrete anime row. -/
theorem anime_genres_cell_amended_witness :
    crowdedAnime ∈ animeTable [crowdedAnime]
    ∧ animeGenresCell crowdedAnime = animeGenresCellAmended crowdedAnime :=
  ⟨by decide, anime_genres_cell_amended [crowdedAnime] crowdedAnime (by decide)⟩

/-- C3: `get_movies` keeps exactly the raw records whose file flag is
present and true (one `MovieItem` each, in order), always sets `has_file`,
never lets a skipped record's identifier appear (identifiers being unique
per catalog), substitutes the documented defaults for absent fields, and on
the two-record scenario catalog yields exactly ["Movie A" with imdb 8.5 and
tmdb 0.0]. -/
theorem get_movies_spec (data : List RawMovie)
    (hids : (data.map (fun i => i.id.getD 0)).Nodup) :
    get_movies data =
      (data.filter (fun i => i.hasFile.getD false)).map parseMovie
    ∧ (∀ m ∈ get_movies data, m.has_file = true)
    ∧ (∀ item ∈ data, item.hasFile.getD false = false →
        ∀ m ∈ get_movies data, m.id ≠ item.id.getD 0)
    ∧ parseMovie ⟨none, none, none, none, none, none, none, none⟩ =
        { id := 0, title := "Unknown", year := 0, genres := [], runtime := 0,
          overview := "", imdb_rating := 0, tmdb_rating := 0,
          has_file := true }
    ∧ get_movies [movieRecordA, movieRecordB] = [movieItemA] := by
  refine ⟨get_movies_eq_filter_map data, ?_, ?_, rfl, rfl⟩
  · intro m hm
    rw [get_movies_eq_filter_map data] at hm
    rcases List.mem_map.1 hm with ⟨item, _, rfl⟩
    rfl
  · intro item hitem hfile m hm hid
    rw [get_movies_eq_filter_map data] at hm
    rcases List.mem_map.1 hm with ⟨item2, h2, rfl⟩
    have h2data : item2 ∈ data := (List.mem_filter.1 h2).1
    have h2file : item2.hasFile.getD false = true := by
      simpa using (List.mem_filter.1 h2).2
    have heq : item2 = item :=
      List.inj_on_of_nodup_map hids h2data hitem hid
    rw [heq] at h2file
    rw [h2file] at hfile
    exact Bool.noConfusion hfile

/-- C4: every `SeriesItem` produced by `get_series` has a strictly positive
downloaded-episode count; the result keeps exactly the raw records with a
non-zero count (one `SeriesItem` each, in order); a zero-count record's
identifier (identifiers being unique per catalog) never appears. -/
theorem get_series_spec (data : List RawSeries)
    (hids : (data.map (fun i => i.id.getD 0)).Nodup) :
    (∀ s ∈ get_series data, 0 < s.episode_count)
    ∧ get_series data =
        (data.filter (fun i => decide ¬ rawEpisodeCount i = 0)).map parseSeries
    ∧ (∀ item ∈ data, rawEpisodeCount item = 0 →
        ∀ s ∈ get_series data, s.id ≠ item.id.getD 0) := by
  refine ⟨?_, get_series_eq_filter_map data, ?_⟩
  · intro s hs
    rw [get_series_eq_filter_map data] at hs
    rcases List.mem_map.1 hs with ⟨item, hitem, rfl⟩
    have hnz : ¬ rawEpisodeCount item = 0 := by
      simpa using (List.mem_filter.1 hitem).2
    have : (parseSeries item).episode_count = rawEpisodeCount item := rfl
    rw [this]
    omega
  · intro item hitem hzero s hs hid
    rw [get_series_eq_filter_map data] at hs
    rcases List.mem_map.1 hs with ⟨item2, h2, rfl⟩
    have h2data : item2 ∈ data := (List.mem_filter.1 h2).1
    have h2nz : ¬ rawEpisodeCount item2 = 0 := by
      simpa using (List.mem_filter.1 h2).2
    have heq : item2 = item :=
      List.inj_on_of_nodup_map hids h2data hitem hid
    rw [heq] at h2nz
    exact h2nz hzero

/-- C7: `search_by_theme` includes an item in its movies / shows / anime
list exactly when the item is in the corresponding source list and some
keyword case-insensitively equals one of its genres or occurs
case-insensitively as a substring of its synopsis; consequently the result
only depends on the lower-cased keywords, so it is invariant under keyword
casing. -/
theorem search_by_theme_spec (movies : List MovieItem)
    (series : List SeriesItem) (kws : List String) :
    (∀ m : MovieItem, m ∈ (search_by_theme movies series kws).movies ↔
        m ∈ movies ∧ themeMatchProp m.genres m.overview kws)
    ∧ (∀ s : SeriesItem, s ∈ (search_by_theme movies series kws).shows ↔
        s ∈ tv_showsOf series ∧ themeMatchProp s.genres s.overview kws)
    ∧ (∀ a : SeriesItem, a ∈ (search_by_theme movies series kws).anime ↔
        a ∈ animeOf series ∧ themeMatchProp a.genres a.overview kws)
    ∧ (∀ kws2 : List String, kws.map pyLower = kws2.map pyLower →
        search_by_theme movies series kws = search_by_theme movies series kws2) := by
  refine ⟨?_, ?_, ?_, ?_⟩
  · intro m
    rw [search_by_theme]
    simp only [List.mem_filter, matches_theme_iff]
  · intro s
    rw [search_by_theme]
    simp only [List.mem_filter, matches_theme_iff]
  · intro a
    rw [search_by_theme]
    simp only [List.mem_filter, matches_theme_iff]
  · intro kws2 h
    rw [search_by_theme, search_by_theme, h]

/-- C8: each cache is memoized: an access with a populated cache returns
the cached list and changes nothing (no fetch); a successful access
populates the cache with the returned list; an access to one cache never
touches the other cache or its fetch counter; and after any successful
access, every later access (under any HTTP world) returns the same list
with no further fetch. -/
theorem cache_memoized (env env2 : Env) (st : LibState) :
    (∀ ms, st.movieCache = some ms → moviesAccess env st = (.ok ms, st))
    ∧ (∀ ss, st.seriesCache = some ss → seriesAccess env st = (.ok ss, st))
    ∧ (∀ ms, (moviesAccess env st).1 = .ok ms →
        (moviesAccess env st).2.movieCache = some ms)
    ∧ (∀ ss, (seriesAccess env st).1 = .ok ss →
        (seriesAccess env st).2.seriesCache = some ss)
    ∧ ((moviesAccess env st).2.seriesCache = st.seriesCache
        ∧ (moviesAccess env st).2.sonarrCalls = st.sonarrCalls)
    ∧ ((seriesAccess env st).2.movieCache = st.movieCache
        ∧ (seriesAccess env st).2.radarrCalls = st.radarrCalls)
    ∧ (∀ ms, (moviesAccess env st).1 = .ok ms →
        moviesAccess env2 (moviesAccess env st).2 =
          (.ok ms, (moviesAccess env st).2))
    ∧ (∀ ss, (seriesAccess env st).1 = .ok ss →
        seriesAccess env2 (seriesAccess env st).2 =
          (.ok ss, (seriesAccess env st).2)) := by
  obtain ⟨mc, sc, rc, snc⟩ := st
  refine ⟨?_, ?_, ?_, ?_, ?_, ?_, ?_, ?_⟩
  · rintro ms h
    cases mc with
    | none => exact absurd h (by simp)
    | some ms2 =>
      obtain rfl : ms2 = ms := by simpa using h
      rfl
  · rintro ss h
    cases sc with
    | none => exact absurd h (by simp)
    | some ss2 =>
      obtain rfl : ss2 = ss := by simpa using h
      rfl
  · intro ms h
    cases mc with
    | some ms2 =>
      simp only [moviesAccess] at h ⊢
      simpa using h
    | none =>
      cases henv : env.radarr rc with
      | error e => rw [moviesAccess] at h; simp [henv] at h
      | ok data =>
        rw [moviesAccess] at h ⊢
        simp only [henv] at h ⊢
        simpa using h
  · intro ss h
    cases sc with
    | some ss2 =>
      simp only [seriesAccess] at h ⊢
      simpa using h
    | none =>
      cases henv : env.sonarr snc with
      | error e => rw [seriesAccess] at h; simp [henv] at h
      | ok data =>
        rw [seriesAccess] at h ⊢
        simp only [henv] at h ⊢
        simpa using h
  · cases mc with
    | some ms2 => exact ⟨rfl, rfl⟩
    | none =>
      cases henv : env.radarr rc with
      | error e => rw [moviesAccess]; simp [henv]
      | ok data => rw [moviesAccess]; simp [henv]
  · cases sc with
    | some ss2 => exact ⟨rfl, rfl⟩
    | none =>
      cases henv : env.sonarr snc with
      | error e => rw [seriesAccess]; simp [henv]
      | ok data => rw [seriesAccess]; simp [henv]
  · intro ms h
    cases mc with
    | some ms2 =>
      obtain rfl : ms2 = ms := by simpa [moviesAccess] using h
      rfl
    | none =>
      cases henv : env.radarr rc with
      | error e => rw [moviesAccess] at h; simp [henv] at h
      | ok data =>
        have hstep : moviesAccess env ⟨none, sc, rc, snc⟩ =
            (.ok (get_movies data),
              ⟨some (get_movies data), sc, rc + 1, snc⟩) := by
          simp [moviesAccess, henv]
        rw [hstep] at h ⊢
        obtain rfl : get_movies data = ms := by simpa using h
        rfl
  · intro ss h
    cases sc with
    | some ss2 =>
      obtain rfl : ss2 = ss := by simpa [seriesAccess] using h
      rfl
    | none =>
      cases henv : env.sonarr snc with
      | error e => rw [seriesAccess] at h; simp [henv] at h
      | ok data =>
        have hstep : seriesAccess env ⟨mc, none, rc, snc⟩ =
            (.ok (get_series data),
              ⟨mc, some (get_series data), rc, snc + 1⟩) := by
          simp [seriesAccess, henv]
        rw [hstep] at h ⊢
        obtain rfl : get_series data = ss := by simpa using h
        rfl

/-- C9: a transport error on a cache-miss access propagates unchanged with
no retry (the state records exactly one more fetch, both caches as before,
the failed one still empty); after a failed movie fetch a series access
still succeeds (the caches are independent); and `get_media_summary`
fails entirely when either underlying access fails, succeeding only when
both do. -/
theorem fetch_error_propagation (env : Env) (st : LibState) (e : ApiError) :
    (st.movieCache = none → env.radarr st.radarrCalls = .error e →
        moviesAccess env st =
          (.error e, { st with radarrCalls := st.radarrCalls + 1 }))
    ∧ (st.seriesCache = none → env.sonarr st.sonarrCalls = .error e →
        seriesAccess env st =
          (.error e, { st with sonarrCalls := st.sonarrCalls + 1 }))
    ∧ (∀ data, st.movieCache = none → env.radarr st.radarrCalls = .error e →
        st.seriesCache = none → env.sonarr st.sonarrCalls = .ok data →
        (seriesAccess env (moviesAccess env st).2).1 = .ok (get_series data))
    ∧ ((moviesAccess env st).1 = .error e →
        (get_media_summary_st env st).1 = .error e)
    ∧ (∀ ms, (moviesAccess env st).1 = .ok ms →
        (seriesAccess env (moviesAccess env st).2).1 = .error e →
        (get_media_summary_st env st).1 = .error e)
    ∧ (∀ ms ss, (moviesAccess env st).1 = .ok ms →
        (seriesAccess env (moviesAccess env st).2).1 = .ok ss →
        get_media_summary_st env st =
          ((.ok (ms, ss)), (seriesAccess env (moviesAccess env st).2).2)) := by
  refine ⟨?_, ?_, ?_, ?_, ?_, ?_⟩
  · intro hmc henv
    rw [moviesAccess, hmc, henv]
  · intro hsc henv
    rw [seriesAccess, hsc, henv]
  · intro data hmc henvr hsc henvs
    have hstep : moviesAccess env st =
        (.error e, { st with radarrCalls := st.radarrCalls + 1 }) := by
      rw [moviesAccess, hmc, henvr]
    rw [hstep, seriesAccess]
    simp [hsc, henvs]
  · intro h
    simp only [get_media_summary_st, h]
  · intro ms h1 h2
    simp only [get_media_summary_st, h1, h2]
  · intro ms ss h1 h2
    simp only [get_media_summary_st, h1, h2]

/-! ### Witnesses -/

/-- Witness for `anime_tv_partition`: id 1 is an anime id of the
one-element library, hence not a tv-show id. -/
theorem anime_tv_partition_witness :
    1 ∉ (tv_showsOf [crowdedAnime]).map SeriesItem.id :=
  (anime_tv_partition [crowdedAnime]).2.1 1 (by decide)

/-- Witness for `get_movies_spec`: the C3 scenario catalog. -/
theorem get_movies_spec_witness :
    get_movies [movieRecordA, movieRecordB] = [movieItemA] :=
  (get_movies_spec [movieRecordA, movieRecordB] (by decide)).2.2.2.2

/-- Witness for `get_series_spec`: "Show X" is materialized with a positive
episode count from a catalog that also holds a zero-count record. -/
theorem get_series_spec_witness :
    0 < (parseSeries seriesRecordX).episode_count :=
  (get_series_spec [seriesRecordZero, seriesRecordX] (by decide)).1
    (parseSeries seriesRecordX) (by decide)

/-- Witness for `search_by_theme_spec`: searching for "ANIME" returns the
same result as searching for "anime". -/
theorem search_by_theme_spec_witness :
    search_by_theme [animeMovie] [crowdedAnime] ["ANIME"] =
      search_by_theme [animeMovie] [crowdedAnime] ["anime"] :=
  (search_by_theme_spec [animeMovie] [crowdedAnime] ["ANIME"]).2.2.2
    ["anime"] (by decide)

/-- Witness for `cache_memoized`: after the first successful movie access a
second access returns the same list without changing the state. -/
theorem cache_memoized_witness :
    moviesAccess envBothUp (moviesAccess envBothUp LibState.init).2 =
      (.ok [movieItemA], (moviesAccess envBothUp LibState.init).2) :=
  (cache_memoized envBothUp envBothUp LibState.init).2.2.2.2.2.2.1
    [movieItemA] rfl

/-- Witness for `fetch_error_propagation`: with radarr down, the movie
access fails with the propagated error and one recorded fetch, while a
subsequent series access still succeeds. -/
theorem fetch_error_witness :
    moviesAccess envRadarrDown LibState.init =
      (.error ⟨500⟩, { LibState.init with radarrCalls := 1 })
    ∧ (seriesAccess envRadarrDown
        (moviesAccess envRadarrDown LibState.init).2).1 =
      .ok (get_series [seriesRecordX]) :=
  ⟨(fetch_error_propagation envRadarrDown LibState.init ⟨500⟩).1 rfl rfl,
   (fetch_error_propagation envRadarrDown LibState.init ⟨500⟩).2.2.1
     [seriesRecordX] rfl rfl rfl rfl⟩

end Scanner
